import Mathlib

/-!
Verification development for the vayu-otel repository (Go): a shallow
embedding, in Lean 4, of the tracing integration's data model and
operations, followed by theorems settling the specification claims.

Conventions of the embedding:
* Go `int`/`int64` values are modelled as `Int` (no arithmetic overflow is
  exercised by any claim).
* Go `float64` values are carried opaquely (`GoFloat`, a raw bit pattern):
  no floating-point arithmetic is performed by the code under scrutiny,
  values are only stored and compared for identity.
* `time.Time` is modelled by its `UnixNano` value, the only projection the
  code uses (`GoTime`).
* a Go panic is modelled as `Option.none` in the result of the panicking
  function.
* Go maps appear only as inputs iterated over; they are modelled as
  association lists (Go's map iteration order is unspecified; the list
  fixes one order, and no claim depends on the order).
-/

/-- Opaque carrier for a Go `float64` value: the raw 64-bit pattern.
The repository never computes with float attribute values, it only stores
them, so identity is all the model needs. -/
structure GoFloat where
  bits : Nat
  deriving DecidableEq

/-- Model of Go `time.Time`, reduced to the single projection the
repository uses: `UnixNano`. -/
structure GoTime where
  unixNano : Int
  deriving DecidableEq

/-- Model of OpenTelemetry `attribute.Value`: the typed payload of an
attribute. Go's `attribute.Int` stores an `int64`, so there is no separate
int constructor. -/
inductive AttrValue where
  | attrString (s : String)
  | attrInt64 (i : Int)
  | attrFloat64 (f : GoFloat)
  | attrBool (b : Bool)
  deriving DecidableEq

/-- Model of OpenTelemetry `attribute.KeyValue`. -/
structure KeyValue where
  key : String
  value : AttrValue
  deriving DecidableEq

/-- Embeds `StringAttribute` (part_003): `attribute.String(key, value)`. -/
def StringAttribute (key value : String) : KeyValue :=
  ⟨key, .attrString value⟩

/-- Embeds `IntAttribute` (part_003): `attribute.Int(key, value)`, which in
the OTel Go SDK stores the int as an int64. -/
def IntAttribute (key : String) (value : Int) : KeyValue :=
  ⟨key, .attrInt64 value⟩

/-- Embeds `Int64Attribute` (part_003): `attribute.Int64(key, value)`. -/
def Int64Attribute (key : String) (value : Int) : KeyValue :=
  ⟨key, .attrInt64 value⟩

/-- Embeds `Float64Attribute` (part_003): `attribute.Float64(key, value)`. -/
def Float64Attribute (key : String) (value : GoFloat) : KeyValue :=
  ⟨key, .attrFloat64 value⟩

/-- Embeds `BoolAttribute` (part_003): `attribute.Bool(key, value)`. -/
def BoolAttribute (key : String) (value : Bool) : KeyValue :=
  ⟨key, .attrBool value⟩

/-- Embeds `TimestampAttribute` (part_003):
`attribute.Int64(key, value.UnixNano())`. -/
def TimestampAttribute (key : String) (value : GoTime) : KeyValue :=
  Int64Attribute key value.unixNano

/-- Model of a Go `interface\x7b\x7d` value as it can appear in the
heterogeneous attribute maps passed to `AddAttributes`/`AddEvent`. The
`vOther` constructor stands for every dynamic type the `switch` in
`convertToAttributes` has no case for (slices, maps, structs, ...),
identified by its type name. -/
inductive GoValue where
  | vString (s : String)
  | vInt (i : Int)
  | vInt64 (i : Int)
  | vFloat64 (f : GoFloat)
  | vBool (b : Bool)
  | vTime (t : GoTime)
  | vOther (typeName : String)
  deriving DecidableEq

/-- Embeds `convertToAttributes` (part_003): iterate the map, switch on the
dynamic type of each value, append the matching attribute, and silently
skip values of any other type (no `default` case in the Go switch). -/
def convertToAttributes : List (String × GoValue) → List KeyValue
  | [] => []
  | (k, v) :: rest =>
    match v with
    | .vString s => StringAttribute k s :: convertToAttributes rest
    | .vInt i => IntAttribute k i :: convertToAttributes rest
    | .vInt64 i => Int64Attribute k i :: convertToAttributes rest
    | .vFloat64 f => Float64Attribute k f :: convertToAttributes rest
    | .vBool b => BoolAttribute k b :: convertToAttributes rest
    | .vTime t => TimestampAttribute k t :: convertToAttributes rest
    | .vOther _ => convertToAttributes rest

/-- Helper: the attribute payload `convertToAttributes` produces for one
map value, `none` when the value's type has no case in the switch. -/
def convertVal : GoValue → Option AttrValue
  | .vString s => some (.attrString s)
  | .vInt i => some (.attrInt64 i)
  | .vInt64 i => some (.attrInt64 i)
  | .vFloat64 f => some (.attrFloat64 f)
  | .vBool b => some (.attrBool b)
  | .vTime t => some (.attrInt64 t.unixNano)
  | .vOther _ => none

theorem convertToAttributes_cons (k : String) (v : GoValue)
    (rest : List (String × GoValue)) :
    convertToAttributes ((k, v) :: rest) =
      match convertVal v with
      | some a => ⟨k, a⟩ :: convertToAttributes rest
      | none => convertToAttributes rest := by
  cases v <;> rfl

/-! ## Span and tracer model

Shallow embedding of the OpenTelemetry SDK objects the repository drives:
spans with attributes/events/status, a span store with fresh identifier
generation, the SDK tracer's `Start` (child of the context's active span,
fresh span id, trace id inherited from a valid parent), and the no-op
tracer (records nothing, propagates a valid span context). Trace and span
identifiers are `Nat`, with `0` playing the role of the all-zero (invalid)
OTel identifier. -/

/-- Terminal status of a span (OTel `codes`): unset, ok, or error with a
description. -/
inductive SpanStatus where
  | unset
  | ok
  | error (description : String)
  deriving DecidableEq

/-- An event recorded on a span: name plus attributes. -/
structure EventData where
  name : String
  attrs : List KeyValue
  deriving DecidableEq

/-- The recorded state of one SDK span. `parent` is the parent span's
identifier (a non-owning reference), `none` for a root span. -/
structure SpanData where
  name : String
  tracerName : String
  traceId : Nat
  spanId : Nat
  parent : Option Nat
  attrs : List KeyValue
  events : List EventData
  status : SpanStatus
  ended : Bool
  deriving DecidableEq

/-- Model of OTel `trace.SpanContext`: the pair of identifiers carried by a
context. A component equal to `0` models the all-zero invalid id. -/
structure SpanCtx where
  traceId : Nat
  spanId : Nat
  deriving DecidableEq

/-- The span currently active in a context: either a recording SDK span
(whose `TracerProvider()` is the SDK provider) or a non-recording span — a
no-op span or a remote span context installed by propagation extraction
(whose `TracerProvider()` is the no-op provider). -/
inductive CtxSpan where
  | recording (sc : SpanCtx)
  | nonRecording (sc : SpanCtx)
  deriving DecidableEq

/-- The span context carried by a `CtxSpan`. -/
def CtxSpan.sc : CtxSpan → SpanCtx
  | .recording sc => sc
  | .nonRecording sc => sc

/-- Model of a Go `context.Context`, restricted to the two keys the
repository reads: the active span (`trace.SpanFromContext`) and the value
stored under `tracerNameKey`. `tracerName = none` models a context in
which no tracer name has been set. -/
structure GoContext where
  activeSpan : Option CtxSpan
  tracerName : Option String
  deriving DecidableEq

/-- Mutable SDK state threaded explicitly: a fresh-id counter, the store of
spans created so far (newest first), and the identifiers of spans handed to
the export pipeline by `End`. -/
structure TraceState where
  nextId : Nat
  spans : List SpanData
  exported : List Nat
  deriving DecidableEq

/-- The empty initial SDK state. -/
def initState : TraceState := ⟨0, [], []⟩

/-- Looks a span up in the store by span identifier. -/
def findSpan (st : TraceState) (sid : Nat) : Option SpanData :=
  st.spans.find? (fun sp => sp.spanId == sid)

/-- Applies `f` to the span with identifier `sid` in the store. -/
def updateSpan (st : TraceState) (sid : Nat) (f : SpanData → SpanData) :
    TraceState :=
  { st with spans := st.spans.map (fun sp => if sp.spanId = sid then f sp else sp) }

/-- Upsert of one attribute into a span's attribute set: keys are unique,
a write to an existing key overwrites its value (OTel `SetAttributes`
semantics: last write wins). -/
def setAttr : List KeyValue → KeyValue → List KeyValue
  | [], kv => [kv]
  | a :: rest, kv => if a.key = kv.key then kv :: rest else a :: setAttr rest kv

/-- Merges a list of attributes into an attribute set, left to right. -/
def mergeAttrs (attrs : List KeyValue) (new : List KeyValue) : List KeyValue :=
  new.foldl setAttr attrs

/-- Embeds `span.SetAttributes(kvs...)` on the span with id `sid`: merges
the attributes; a span that has ended is no longer recording and is left
unchanged (SDK guard). -/
def setSpanAttributes (st : TraceState) (sid : Nat) (kvs : List KeyValue) :
    TraceState :=
  updateSpan st sid (fun sp =>
    if sp.ended then sp else { sp with attrs := mergeAttrs sp.attrs kvs })

/-- Embeds `span.SetStatus(code, description)` on the span with id `sid`;
no effect on an ended span. -/
def setSpanStatus (st : TraceState) (sid : Nat) (status : SpanStatus) :
    TraceState :=
  updateSpan st sid (fun sp => if sp.ended then sp else { sp with status := status })

/-- Embeds `span.AddEvent(name, attrs)` on the span with id `sid`; no
effect on an ended span. -/
def addSpanEvent (st : TraceState) (sid : Nat) (name : String)
    (attrs : List KeyValue) : TraceState :=
  updateSpan st sid (fun sp =>
    if sp.ended then sp else { sp with events := sp.events ++ [⟨name, attrs⟩] })

/-- Embeds `span.End()`: marks the span ended and enqueues it to the export
pipeline exactly once; a second `End` is a no-op (SDK guarantee). -/
def endSpan (st : TraceState) (sid : Nat) : TraceState :=
  match findSpan st sid with
  | none => st
  | some sp =>
    if sp.ended then st
    else
      { nextId := st.nextId
        spans := st.spans.map (fun q => if q.spanId = sid then { q with ended := true } else q)
        exported := st.exported ++ [sid] }

/-- The span context `trace.SpanFromContext(ctx)` yields: the active span's
span context, or the all-zero span context of the no-op span when no span
is active. -/
def parentSpanCtx (ctx : GoContext) : SpanCtx :=
  match ctx.activeSpan with
  | some cs => cs.sc
  | none => ⟨0, 0⟩

/-- Embeds the SDK tracer's `tracer.Start(ctx, name)` under the always-on
sampler `NewProvider` installs: if the context carries a valid span context
it becomes the parent (trace id inherited, parent span id recorded),
otherwise a fresh trace id is drawn; the new span always gets a fresh span
id and is installed as the active span of the returned context. Fresh
identifiers are successive positive naturals, so they are never the invalid
id `0`. -/
def sdkTracerStart (st : TraceState) (ctx : GoContext) (tn name : String) :
    TraceState × GoContext × SpanCtx :=
  let psc := parentSpanCtx ctx
  if psc.traceId ≠ 0 ∧ psc.spanId ≠ 0 then
    let sid := st.nextId + 1
    let sp : SpanData :=
      { name := name, tracerName := tn, traceId := psc.traceId, spanId := sid
        parent := some psc.spanId, attrs := [], events := [], status := .unset
        ended := false }
    ({ nextId := sid, spans := sp :: st.spans, exported := st.exported },
     { ctx with activeSpan := some (.recording ⟨psc.traceId, sid⟩) },
     ⟨psc.traceId, sid⟩)
  else
    let tid := st.nextId + 1
    let sid := st.nextId + 2
    let sp : SpanData :=
      { name := name, tracerName := tn, traceId := tid, spanId := sid
        parent := none, attrs := [], events := [], status := .unset
        ended := false }
    ({ nextId := sid, spans := sp :: st.spans, exported := st.exported },
     { ctx with activeSpan := some (.recording ⟨tid, sid⟩) },
     ⟨tid, sid⟩)

/-- Embeds the no-op tracer's `Start`: records nothing; the returned span
carries the incoming span context when that is valid, the all-zero span
context otherwise, and becomes the context's active span. -/
def noopTracerStart (ctx : GoContext) : GoContext × SpanCtx :=
  let psc := parentSpanCtx ctx
  let sc := if psc.traceId ≠ 0 ∧ psc.spanId ≠ 0 then psc else ⟨0, 0⟩
  ({ ctx with activeSpan := some (.nonRecording sc) }, sc)

/-- Embeds the wrapper type `Span` (part_003): the raw span handle plus the
context that reaches it. -/
structure SpanW where
  kind : CtxSpan
  ctx : GoContext
  deriving DecidableEq

/-- Embeds `Span.Context` (part_003): returns the context associated with
the wrapper. -/
def SpanW.Context (s : SpanW) : GoContext := s.ctx

/-- Embeds `Start` (part_003). The Go code reads the current span from the
context, takes `TracerProvider()` from it (the SDK provider for a recording
span, the no-op provider otherwise), and resolves the tracer name with the
unchecked type assertion `ctx.Value(tracerNameKey).(string)` — which
panics (modelled as `none`) when no tracer name has been set in the
context. -/
def Start (st : TraceState) (ctx : GoContext) (name : String) :
    Option (TraceState × SpanW) :=
  match ctx.tracerName with
  | none => none
  | some tn =>
    match ctx.activeSpan.getD (.nonRecording ⟨0, 0⟩) with
    | .recording _ =>
      let r := sdkTracerStart st ctx tn name
      some (r.1, { kind := .recording r.2.2, ctx := r.2.1 })
    | .nonRecording _ =>
      let r := noopTracerStart ctx
      some (st, { kind := .nonRecording r.2, ctx := r.1 })

/-- Effect of a wrapper mutation on the SDK state: a recording span's
stored data is updated, a non-recording span records nothing. -/
def applyOnRecording (st : TraceState) (w : SpanW)
    (f : TraceState → Nat → TraceState) : TraceState :=
  match w.kind with
  | .recording sc => f st sc.spanId
  | .nonRecording _ => st

/-- Embeds `Span.AddAttributes` (part_003): converts the heterogeneous map
and calls `SetAttributes` on the wrapped span; returns the wrapper itself
for chaining. -/
def AddAttributes (st : TraceState) (s : SpanW)
    (attributes : List (String × GoValue)) : TraceState × SpanW :=
  (applyOnRecording st s
    (fun st' sid => setSpanAttributes st' sid (convertToAttributes attributes)), s)

/-- Embeds `Span.AddEvent` (part_003): converts the optional attribute map
and calls `AddEvent` on the wrapped span; returns the wrapper itself. -/
def SpanAddEvent (st : TraceState) (s : SpanW) (name : String)
    (attributes : Option (List (String × GoValue))) : TraceState × SpanW :=
  let attrs := match attributes with
    | some m => convertToAttributes m
    | none => []
  (applyOnRecording st s (fun st' sid => addSpanEvent st' sid name attrs), s)

/-- Embeds `Span.RecordError` (part_003): records the error event and sets
the span status to error with the error's message; returns the wrapper
itself. -/
def SpanRecordError (st : TraceState) (s : SpanW) (message : String) :
    TraceState × SpanW :=
  (applyOnRecording st s (fun st' sid =>
    setSpanStatus (addSpanEvent st' sid "exception" [⟨"exception.message", .attrString message⟩])
      sid (.error message)), s)

/-- Embeds `Span.End` (part_003): ends the wrapped span. -/
def SpanEnd (st : TraceState) (s : SpanW) : TraceState :=
  applyOnRecording st s endSpan

/-! ## Provider, configuration, setup and shutdown

Embedding of `Config`, `NewProvider`, `Provider.Shutdown` (part_009),
`Setup`, `Integration.Shutdown`, `Integration.GetTracer` (otel.go). The
construction of the two SDK exporters happens inside the external OTel
libraries; it is abstracted by an environment recording whether each
construction succeeds, and by a description of the exporter constructed. -/

/-- Errors of the repository (errors.go) plus a wrapper for errors
propagated from the external SDK (resource/exporter construction,
shutdown). The constructors of errors.go are distinct values of Go type
`error`. -/
inductive GoError where
  | errNoApp
  | errInvalidConfig
  | errProviderNotInitialized
  | other (message : String)
  deriving DecidableEq

/-- Embeds `ResourceAttribute` (part_009). -/
structure ResourceAttribute where
  key : String
  value : String
  deriving DecidableEq

/-- Embeds `Config` (part_009). `BatchTimeout` is a `time.Duration` in
nanoseconds, modelled as `Int`; `Headers` is a Go map of strings, modelled
as an association list. -/
structure Config where
  ServiceName : String
  ServiceVersion : String
  Environment : String
  OTLPEndpoint : String
  UseStdout : Bool
  Insecure : Bool
  Headers : List (String × String)
  BatchTimeout : Int
  BatchSize : Int
  AdditionalAttributes : List ResourceAttribute
  deriving DecidableEq

/-- Embeds `DefaultConfig` (part_009); 5 seconds in nanoseconds. -/
def DefaultConfig : Config :=
  { ServiceName := "vayu-service"
    ServiceVersion := "0.1.0"
    Environment := "development"
    OTLPEndpoint := "localhost:4317"
    UseStdout := false
    Insecure := true
    Headers := []
    BatchTimeout := 5000000000
    BatchSize := 512
    AdditionalAttributes := [] }

/-- Description of the one exporter `NewProvider` constructs: the console
exporter (`stdouttrace.New` with pretty printing) or the OTLP gRPC
exporter with its endpoint, transport-security flag and headers. -/
inductive Exporter where
  | stdout (prettyPrint : Bool)
  | otlpGrpc (endpoint : String) (insecure : Bool) (headers : List (String × String))
  deriving DecidableEq

/-- Abstraction of the external SDK constructors `NewProvider` calls:
each field is the error the corresponding construction returns, `none`
for success. The OTLP error may depend on the endpoint, the insecure flag
and the headers passed to the client. -/
structure ExporterEnv where
  resourceErr : Option String
  stdoutErr : Option String
  otlpErr : String → Bool → List (String × String) → Option String

/-- An environment in which every external construction succeeds. -/
def envOk : ExporterEnv :=
  { resourceErr := none, stdoutErr := none, otlpErr := fun _ _ _ => none }

/-- Model of the SDK `TracerProvider` state `NewProvider` builds: the
resource attributes shared by every span, the single exporter wrapped in
the batch processor with its parameters, and the shutdown state (whether
shutdown has run, the buffered ended spans, the spans flushed to the
exporter). -/
structure TracerProviderRec where
  res : List KeyValue
  exporter : Exporter
  batchTimeout : Int
  batchSize : Int
  isShutdown : Bool
  buffered : List Nat
  exported : List Nat
  deriving DecidableEq

/-- Embeds `Provider` (part_009): the SDK tracer provider pointer (which
Go allows to be nil) and the configuration. -/
structure Provider where
  TracerProvider : Option TracerProviderRec
  Config : Config
  deriving DecidableEq

/-- Embeds `NewProvider` (part_009), Go-style result: the provider-or-nil,
the error-or-nil, and additionally the list of exporters the call
constructed (to state that exactly one is). Mirrors the source order:
resource attributes (service name always; version and environment only
when non-empty; then the user's additional attributes), `resource.New`,
then one exporter chosen by `UseStdout` — with `WithInsecure` credentials
when `Insecure` is set and the headers copied when non-empty — then the
batch processor and the tracer provider. No validation of the
configuration is performed anywhere in the function. -/
def NewProvider (cfg : Config) (env : ExporterEnv) :
    (Option Provider × Option GoError) × List Exporter :=
  let resourceAttrs := [ResourceAttribute.mk "service.name" cfg.ServiceName]
  let resourceAttrs := if cfg.ServiceVersion ≠ "" then
      resourceAttrs ++ [ResourceAttribute.mk "service.version" cfg.ServiceVersion]
    else resourceAttrs
  let resourceAttrs := if cfg.Environment ≠ "" then
      resourceAttrs ++ [ResourceAttribute.mk "deployment.environment" cfg.Environment]
    else resourceAttrs
  let resourceAttrs := resourceAttrs ++ cfg.AdditionalAttributes
  match env.resourceErr with
  | some e => ((none, some (.other e)), [])
  | none =>
    let exporterResult : Except String Exporter :=
      if cfg.UseStdout then
        match env.stdoutErr with
        | some e => .error e
        | none => .ok (.stdout true)
      else
        match env.otlpErr cfg.OTLPEndpoint cfg.Insecure cfg.Headers with
        | some e => .error e
        | none => .ok (.otlpGrpc cfg.OTLPEndpoint cfg.Insecure cfg.Headers)
    match exporterResult with
    | .error e => ((none, some (.other e)), [])
    | .ok ex =>
      let tp : TracerProviderRec :=
        { res := resourceAttrs.map (fun a => KeyValue.mk a.key (.attrString a.value))
          exporter := ex
          batchTimeout := cfg.BatchTimeout
          batchSize := cfg.BatchSize
          isShutdown := false
          buffered := []
          exported := [] }
      ((some { TracerProvider := some tp, Config := cfg }, none), [ex])

/-- Modelled from the spec: the external SDK `TracerProvider.Shutdown`
(the repository delegates to it; its body lives in the OTel SDK, outside
this repository). Per the spec's pipeline contract it flushes the buffered
already-ended spans to the exporter and releases resources; it is
idempotent — a second call after a successful one returns immediately
without error — and when the deadline elapses before the flush completes
it returns a timeout error while still releasing what it can. The
`deadlineExceeded` flag abstracts the context deadline. -/
def sdkTracerProviderShutdown (deadlineExceeded : Bool)
    (tp : TracerProviderRec) : TracerProviderRec × Option GoError :=
  if tp.isShutdown then (tp, none)
  else if deadlineExceeded then
    ({ tp with isShutdown := true, buffered := [] },
     some (.other "shutdown deadline exceeded"))
  else
    ({ tp with
        isShutdown := true
        buffered := []
        exported := tp.exported ++ tp.buffered }, none)

/-- Embeds `Provider.Shutdown` (part_009): delegates to the SDK tracer
provider's shutdown when the pointer is non-nil, returns nil otherwise. -/
def ProviderShutdown (deadlineExceeded : Bool) (p : Provider) :
    Provider × Option GoError :=
  match p.TracerProvider with
  | none => (p, none)
  | some tp =>
    let r := sdkTracerProviderShutdown deadlineExceeded tp
    ({ p with TracerProvider := some r.1 }, r.2)

/-- Model of a `vayu.App` handle (opaque to this package). -/
structure App where
  id : Nat
  deriving DecidableEq

/-- Embeds `Integration` (otel.go). -/
structure Integration where
  provider : Option Provider
  app : App
  deriving DecidableEq

/-- Embeds `SetupOptions` (otel.go): `App` is a pointer, so it may be
nil (`none`). -/
structure SetupOptions where
  App : Option App
  Config : Config

/-- Embeds `Setup` (otel.go), Go-style result plus the exporters the call
constructed: returns `ErrNoApp` when no app is provided (before any
provider construction), otherwise forwards `NewProvider`'s outcome,
returning the integration exactly when the provider was built. -/
def Setup (options : SetupOptions) (env : ExporterEnv) :
    (Option Integration × Option GoError) × List Exporter :=
  match options.App with
  | none => ((none, some .errNoApp), [])
  | some app =>
    match NewProvider options.Config env with
    | ((none, e), built) => ((none, e), built)
    | ((some p, _), built) =>
      ((some { provider := some p, app := app }, none), built)

/-- Embeds `Integration.Shutdown` (otel.go): delegates to the provider's
shutdown when the provider is non-nil, returns nil otherwise. -/
def IntegrationShutdown (deadlineExceeded : Bool) (i : Integration) :
    Integration × Option GoError :=
  match i.provider with
  | none => (i, none)
  | some p =>
    let r := ProviderShutdown deadlineExceeded p
    ({ i with provider := some r.1 }, r.2)

/-- The spans an integration's pipeline has flushed to its exporter. -/
def exportedOf (i : Integration) : List Nat :=
  match i.provider with
  | none => []
  | some p =>
    match p.TracerProvider with
    | none => []
    | some tp => tp.exported

/-- Model of a Go `trace.Tracer` value: a tracer of the SDK provider it
came from, bound to a name, or a tracer of the no-op provider. -/
inductive Tracer where
  | sdkTracer (tp : TracerProviderRec) (name : String)
  | noopTracer (name : String)
  deriving DecidableEq

/-- The process-global tracer provider (`otel.GetTracerProvider`): the SDK
provider installed by `otel.SetTracerProvider` in `NewProvider`, or the
default no-op provider when none was installed. -/
def otelGlobalTracer (globalTP : Option TracerProviderRec) (name : String) :
    Tracer :=
  match globalTP with
  | some tp => .sdkTracer tp name
  | none => .noopTracer name

/-- Embeds `NewNoopTracer` (otel.go):
`otel.GetTracerProvider().Tracer("noop")`. -/
def NewNoopTracer (globalTP : Option TracerProviderRec) : Tracer :=
  otelGlobalTracer globalTP "noop"

/-- Embeds `Integration.GetTracer` (otel.go), with the Go interface value
modelled as an `Option` so that "returns nil" is representable: returns
`NewNoopTracer()` when the provider is nil or its tracer provider pointer
is nil, otherwise the provider's tracer bound to the requested name. -/
def GetTracer (i : Integration) (globalTP : Option TracerProviderRec)
    (tracerName : String) : Option Tracer :=
  match i.provider with
  | none => some (NewNoopTracer globalTP)
  | some p =>
    match p.TracerProvider with
    | none => some (NewNoopTracer globalTP)
    | some tp => some (.sdkTracer tp tracerName)

/-! ## Tracing middleware

Embedding of `Integration.Middleware` (part_001) with the default options:
per request it extracts inbound propagation, starts the root span with the
provider's tracer named `"vayu-http"`, attaches the request attributes and
route parameters, stores the tracer name in the context, replaces the
request context, invokes the handler, then finalizes the status-code
attribute and span status and ends the span (deferred `End`). -/

/-- Model of the inbound HTTP request as the middleware reads it. The
`inboundParent` field is the result of `propagator.Extract` on the request
headers: a valid remote span context, or `none` when the traceparent
header is absent or malformed (extraction degrades silently). -/
structure Request where
  method : String
  urlPath : String
  urlFull : String
  host : String
  userAgent : String
  tls : Bool
  xForwardedProto : String
  params : List (String × String)
  inboundParent : Option SpanCtx
  deriving DecidableEq

/-- Embeds `getScheme` (http_helpers.go): https when TLS is present, else
the X-Forwarded-Proto header when non-empty, else http. The header's
absence is Go's `Header.Get` returning the empty string. -/
def getScheme (r : Request) : String :=
  if r.tls then "https"
  else if r.xForwardedProto ≠ "" then r.xForwardedProto
  else "http"

/-- Embeds the default `SpanNameFormatter` (part_001):
`"HTTP " + method + " " + path`. -/
def defaultSpanName (r : Request) : String :=
  "HTTP " ++ r.method ++ " " ++ r.urlPath

/-- Embeds the request-handling closure `Integration.Middleware` returns,
with the default options (default span name formatter, no custom
attributes). `handlerStatus` is the HTTP status code the handler writes to
the response; the middleware never reads it back: after `next()` it uses
the fixed placeholder `responseStatus := 200` for the status-code
attribute and the server-error check. Returns the final SDK state, the
root span's identifier, and the context installed for the handler. -/
def MiddlewareHandle (st : TraceState) (req : Request) (handlerStatus : Nat) :
    TraceState × Nat × GoContext :=
  let ctx0 : GoContext :=
    { activeSpan := req.inboundParent.map CtxSpan.nonRecording, tracerName := none }
  let spanName := defaultSpanName req
  let r := sdkTracerStart st ctx0 "vayu-http" spanName
  let st1 := r.1
  let ctx1 := r.2.1
  let sid := r.2.2.spanId
  let st2 := setSpanAttributes st1 sid
    [ StringAttribute "http.method" req.method
    , StringAttribute "http.url" req.urlFull
    , StringAttribute "http.host" req.host
    , StringAttribute "http.user_agent" req.userAgent
    , StringAttribute "http.scheme" (getScheme req)
    , StringAttribute "http.target" req.urlPath ]
  let st3 := req.params.foldl
    (fun s kv => setSpanAttributes s sid [StringAttribute ("http.route.param." ++ kv.1) kv.2])
    st2
  let ctx2 := { ctx1 with tracerName := some "vayu-http" }
  let _ := handlerStatus
  let responseStatus : Nat := 200
  let st4 := setSpanAttributes st3 sid [IntAttribute "http.status_code" (Int.ofNat responseStatus)]
  let st5 :=
    if responseStatus ≥ 500 then
      setSpanStatus (setSpanAttributes st4 sid [BoolAttribute "error" true]) sid
        (.error ("Error: HTTP " ++ toString responseStatus))
    else st4
  let st6 := endSpan st5 sid
  (st6, sid, ctx2)

/-- The root span's recorded data after the middleware has handled a
request. -/
def middlewareRootSpan (st : TraceState) (req : Request) (handlerStatus : Nat) :
    Option SpanData :=
  let r := MiddlewareHandle st req handlerStatus
  findSpan r.1 r.2.1

/-! ## Helper lemmas about attribute sets and the span store -/

/-- The value stored under key `k` in an attribute set. -/
def lookupAttr (attrs : List KeyValue) (k : String) : Option AttrValue :=
  (attrs.find? (fun a => a.key == k)).map (fun a => a.value)

/-- First-some choice on optional attribute values. -/
def orO (a b : Option AttrValue) : Option AttrValue :=
  match a with
  | some v => some v
  | none => b

theorem orO_none_left (b : Option AttrValue) : orO none b = b := rfl

theorem orO_none_right (a : Option AttrValue) : orO a none = a := by
  cases a <;> rfl

theorem orO_assoc (a b c : Option AttrValue) :
    orO (orO a b) c = orO a (orO b c) := by
  cases a <;> rfl

theorem lookupAttr_nil (k : String) : lookupAttr [] k = none := rfl

theorem lookupAttr_cons (a : KeyValue) (l : List KeyValue) (k : String) :
    lookupAttr (a :: l) k = if a.key = k then some a.value else lookupAttr l k := by
  by_cases h : a.key = k
  · rw [lookupAttr, List.find?_cons_of_pos _ (by simp [h]), if_pos h]
    rfl
  · rw [lookupAttr, List.find?_cons_of_neg _ (by simp [h]), if_neg h]
    rfl

theorem lookupAttr_append (l1 l2 : List KeyValue) (k : String) :
    lookupAttr (l1 ++ l2) k = orO (lookupAttr l1 k) (lookupAttr l2 k) := by
  induction l1 with
  | nil => simp [lookupAttr_nil, orO_none_left]
  | cons a rest ih =>
    by_cases h : a.key = k <;>
      simp [lookupAttr_cons, h, ih, orO]

theorem lookupAttr_setAttr (l : List KeyValue) (kv : KeyValue) (k : String) :
    lookupAttr (setAttr l kv) k =
      if kv.key = k then some kv.value else lookupAttr l k := by
  induction l with
  | nil => simp [setAttr, lookupAttr_cons, lookupAttr_nil]
  | cons a rest ih =>
    show lookupAttr (if a.key = kv.key then kv :: rest else a :: setAttr rest kv) k = _
    by_cases hak : a.key = kv.key
    · rw [if_pos hak, lookupAttr_cons]
      by_cases hkk : kv.key = k
      · simp [hkk]
      · have hak' : ¬ a.key = k := by rw [hak]; exact hkk
        simp [hkk, hak', lookupAttr_cons]
    · rw [if_neg hak, lookupAttr_cons, ih]
      by_cases hk : a.key = k
      · have hkk : ¬ kv.key = k := fun h => hak (by rw [hk, h])
        simp [hk, hkk, lookupAttr_cons]
      · simp [hk, lookupAttr_cons]

/-- The value the LAST write to key `k` in `l` would leave (write order is
list order). -/
def lookupAttrLast (l : List KeyValue) (k : String) : Option AttrValue :=
  lookupAttr l.reverse k

theorem lookupAttrLast_nil (k : String) : lookupAttrLast [] k = none := rfl

theorem lookupAttrLast_cons (x : KeyValue) (l : List KeyValue) (k : String) :
    lookupAttrLast (x :: l) k =
      orO (lookupAttrLast l k) (if x.key = k then some x.value else none) := by
  unfold lookupAttrLast
  rw [List.reverse_cons, lookupAttr_append]
  by_cases h : x.key = k <;> simp [lookupAttr_cons, lookupAttr_nil, h]

theorem lookupAttr_mergeAttrs (L A : List KeyValue) (k : String) :
    lookupAttr (mergeAttrs A L) k = orO (lookupAttrLast L k) (lookupAttr A k) := by
  induction L generalizing A with
  | nil => simp [mergeAttrs, lookupAttrLast_nil, orO_none_left]
  | cons kv L ih =>
    have h1 : mergeAttrs A (kv :: L) = mergeAttrs (setAttr A kv) L := rfl
    rw [h1, ih, lookupAttr_setAttr, lookupAttrLast_cons, orO_assoc]
    by_cases h : kv.key = k <;> simp [h, orO]

/-- Number of entries of the attribute map with key `k`. -/
def keyCount (m : List (String × GoValue)) (k : String) : Nat :=
  (m.filter (fun p => p.1 == k)).length

theorem keyCount_nil (k : String) : keyCount [] k = 0 := rfl

theorem keyCount_cons (p : String × GoValue) (m : List (String × GoValue))
    (k : String) :
    keyCount (p :: m) k = if p.1 = k then keyCount m k + 1 else keyCount m k := by
  by_cases h : p.1 = k <;> simp [keyCount, List.filter_cons, h]

theorem mem_keyCount_ne_zero (m : List (String × GoValue)) (k : String)
    (v : GoValue) (hm : (k, v) ∈ m) : keyCount m k ≠ 0 := by
  induction m with
  | nil => cases hm
  | cons p rest ih =>
    rcases List.mem_cons.mp hm with h | h
    · rw [keyCount_cons, ← h]
      simp
    · rw [keyCount_cons]
      by_cases hk : p.1 = k <;> simp [hk, ih h]

theorem lookupAttrLast_convert_zero (m : List (String × GoValue)) (k : String)
    (h : keyCount m k = 0) :
    lookupAttrLast (convertToAttributes m) k = none := by
  induction m with
  | nil => rfl
  | cons p rest ih =>
    obtain ⟨k', v'⟩ := p
    rw [keyCount_cons] at h
    by_cases hk : k' = k
    · simp [hk] at h
    · simp only [hk, if_false] at h
      rw [convertToAttributes_cons]
      cases hcv : convertVal v' with
      | none => exact ih h
      | some a =>
        simp only []
        rw [lookupAttrLast_cons]
        simp only [hk, if_false, orO_none_right]
        exact ih h

theorem lookupAttrLast_convert_unique (m : List (String × GoValue))
    (k : String) (v : GoValue) (hm : (k, v) ∈ m) (hc : keyCount m k = 1) :
    lookupAttrLast (convertToAttributes m) k = convertVal v := by
  induction m with
  | nil => cases hm
  | cons p rest ih =>
    obtain ⟨k', v'⟩ := p
    rw [keyCount_cons] at hc
    by_cases hk : k' = k
    · simp only [hk, if_true] at hc
      have hzero : keyCount rest k = 0 := by omega
      have hhead : (k, v) = (k', v') := by
        rcases List.mem_cons.mp hm with h | h
        · exact h
        · exact absurd hzero (mem_keyCount_ne_zero rest k v h)
      have hv' : v' = v := by
        have h2 := congrArg Prod.snd hhead
        simpa using h2.symm
      rw [convertToAttributes_cons, ← hv']
      cases hcv : convertVal v' with
      | none =>
        exact lookupAttrLast_convert_zero rest k hzero
      | some a =>
        show lookupAttrLast (KeyValue.mk k' a :: convertToAttributes rest) k = some a
        rw [lookupAttrLast_cons, lookupAttrLast_convert_zero rest k hzero,
          orO_none_left]
        simp [hk]
    · simp only [hk, if_false] at hc
      have hmem : (k, v) ∈ rest := by
        rcases List.mem_cons.mp hm with h | h
        · exact absurd (congrArg Prod.fst h) (fun hh => hk hh.symm)
        · exact h
      rw [convertToAttributes_cons]
      cases hcv : convertVal v' with
      | none =>
        exact ih hmem hc
      | some a =>
        show lookupAttrLast (KeyValue.mk k' a :: convertToAttributes rest) k = convertVal v
        rw [lookupAttrLast_cons]
        simp only [hk, if_false, orO_none_right]
        exact ih hmem hc

theorem findSpan_updateSpan (st : TraceState) (sid : Nat)
    (f : SpanData → SpanData) (hf : ∀ sp, (f sp).spanId = sp.spanId) :
    findSpan (updateSpan st sid f) sid =
      (findSpan st sid).map (fun sp => if sp.spanId = sid then f sp else sp) := by
  unfold findSpan updateSpan
  simp only []
  rw [List.find?_map]
  have hpr : ((fun sp => sp.spanId == sid) ∘ fun sp => if sp.spanId = sid then f sp else sp)
      = fun sp : SpanData => sp.spanId == sid := by
    funext sp
    by_cases h : sp.spanId = sid <;> simp [h, hf]
  rw [hpr]

/-- When the context carries a tracer name and a recording active span with
a valid span context, `Start` creates exactly one new recording span: child
of the active span, same trace id, fresh span id, installed as active in
the wrapper's context. -/
theorem start_from_recording (st : TraceState) (ctx : GoContext)
    (tn n : String) (sc : SpanCtx)
    (htn : ctx.tracerName = some tn) (hact : ctx.activeSpan = some (.recording sc))
    (ht : sc.traceId ≠ 0) (hs : sc.spanId ≠ 0) :
    Start st ctx n = some
      ({ nextId := st.nextId + 1
         spans := { name := n, tracerName := tn, traceId := sc.traceId
                    spanId := st.nextId + 1, parent := some sc.spanId, attrs := []
                    events := [], status := .unset, ended := false } :: st.spans
         exported := st.exported },
       { kind := .recording ⟨sc.traceId, st.nextId + 1⟩
         ctx := { ctx with activeSpan := some (.recording ⟨sc.traceId, st.nextId + 1⟩) } }) := by
  unfold Start
  rw [htn]
  simp only [hact, Option.getD_some]
  unfold sdkTracerStart parentSpanCtx
  rw [hact]
  simp [CtxSpan.sc, ht, hs, htn]

/-- Inversion: when `Start` succeeds and the returned wrapper wraps a
recording span, that span's context is valid (both identifiers non-zero),
it is the active span of the wrapper's context, and the tracer name is
carried over unchanged. -/
theorem start_recording_inv (st : TraceState) (ctx : GoContext) (n : String)
    (st1 : TraceState) (A : SpanW) (sc : SpanCtx)
    (hA : Start st ctx n = some (st1, A)) (hrec : A.kind = .recording sc) :
    sc.traceId ≠ 0 ∧ sc.spanId ≠ 0 ∧
      A.ctx.activeSpan = some (.recording sc) ∧
      A.ctx.tracerName = ctx.tracerName := by
  unfold Start at hA
  cases htn : ctx.tracerName with
  | none =>
    rw [htn] at hA
    cases hA
  | some tn =>
    rw [htn] at hA
    cases hcur : ctx.activeSpan.getD (.nonRecording ⟨0, 0⟩) with
    | nonRecording sc' =>
      rw [hcur] at hA
      simp only [Option.some.injEq, Prod.mk.injEq] at hA
      obtain ⟨hst, hAeq⟩ := hA
      rw [← hAeq] at hrec
      simp at hrec
    | recording sc' =>
      rw [hcur] at hA
      simp only [Option.some.injEq, Prod.mk.injEq] at hA
      obtain ⟨hst, hAeq⟩ := hA
      unfold sdkTracerStart at hAeq
      by_cases hv : (parentSpanCtx ctx).traceId ≠ 0 ∧ (parentSpanCtx ctx).spanId ≠ 0
      · rw [if_pos hv] at hAeq
        simp only [] at hAeq
        rw [← hAeq] at hrec
        simp only [] at hrec
        have hsc : sc = ⟨(parentSpanCtx ctx).traceId, st.nextId + 1⟩ := by
          injection hrec.symm
        subst hsc
        refine ⟨hv.1, by simp, ?_, ?_⟩
        · rw [← hAeq]
        · rw [← hAeq]
          rw [htn]
      · rw [if_neg hv] at hAeq
        simp only [] at hAeq
        rw [← hAeq] at hrec
        simp only [] at hrec
        have hsc : sc = ⟨st.nextId + 1, st.nextId + 2⟩ := by
          injection hrec.symm
        subst hsc
        refine ⟨by simp, by simp, ?_, ?_⟩
        · rw [← hAeq]
        · rw [← hAeq]
          rw [htn]

/-! ## Claim theorems -/

/-- A concrete inbound request used to evaluate the middleware: no inbound
trace headers, plain HTTP, no route parameters. -/
def reqError : Request :=
  { method := "GET"
    urlPath := "/error"
    urlFull := "http://example.com/error"
    host := "example.com"
    userAgent := "test-agent"
    tls := false
    xForwardedProto := ""
    params := []
    inboundParent := none }

/-- C1: the claim says a handler producing a 503 response results in the
root span having status error with the `http.status_code` attribute
recording the response status. The code does not do this: the middleware
hardcodes `responseStatus := 200` after `next()` returns, so for a handler
that responds 503 the root span's status stays unset and the
`http.status_code` attribute reads 200. This theorem evaluates the
embedded middleware at the failing input (handler status 503). -/
theorem c1_middleware_status_hardcoded_200 :
    (middlewareRootSpan initState reqError 503).map SpanData.status =
      some SpanStatus.unset ∧
    ((middlewareRootSpan initState reqError 503).bind
      (fun d => lookupAttr d.attrs "http.status_code")) =
      some (AttrValue.attrInt64 200) ∧
    (middlewareRootSpan initState reqError 503).map SpanData.ended = some true := by
  refine ⟨rfl, rfl, rfl⟩

/-- C2 counterexample: the claim says that for every context in which no
tracer name has been set, `Start(ctx, name)` succeeds without panicking by
falling back to the process-default tracer name. In the code
`ctx.Value(tracerNameKey).(string)` is an unchecked type assertion with no
fallback: on a context holding no tracer name it panics (modelled as
`none`). -/
theorem c2_start_panics_without_tracer_name :
    Start initState { activeSpan := none, tracerName := none }
      "database.get_user" = none ∧
    (({ activeSpan := none, tracerName := none } : GoContext)).tracerName = none :=
  ⟨rfl, rfl⟩

/-- C2 amended: `Start(ctx, name)` succeeds exactly when a tracer name is
present in the context (the middleware is what installs the process-default
name "vayu-http"); when none is set, the unchecked type assertion panics —
there is no fallback. -/
theorem c2_start_succeeds_iff_tracer_name (st : TraceState) (ctx : GoContext)
    (name : String) :
    (Start st ctx name).isSome ↔ ctx.tracerName.isSome := by
  unfold Start
  cases htn : ctx.tracerName with
  | none => simp
  | some tn =>
    cases hcur : ctx.activeSpan.getD (.nonRecording ⟨0, 0⟩) <;> simp [hcur]

/-- C4: for every span A created by `Start` (wrapping a recording SDK
span) and every span B created by `Start` from the context returned by A's
`Context()` accessor, B's recorded parent span identifier equals A's span
identifier and A and B carry the same trace identifier. -/
theorem c4_child_parent_linkage (st : TraceState) (ctx : GoContext)
    (n1 n2 : String) (st1 : TraceState) (A : SpanW) (sc : SpanCtx)
    (hA : Start st ctx n1 = some (st1, A))
    (hrec : A.kind = CtxSpan.recording sc) :
    ∃ st2 B sc2 dB,
      Start st1 A.Context n2 = some (st2, B) ∧
      B.kind = CtxSpan.recording sc2 ∧
      findSpan st2 sc2.spanId = some dB ∧
      dB.parent = some sc.spanId ∧
      dB.traceId = sc.traceId ∧
      sc2.traceId = sc.traceId := by
  obtain ⟨ht, hs, hact, htn⟩ := start_recording_inv st ctx n1 st1 A sc hA hrec
  cases htn2 : ctx.tracerName with
  | none =>
    unfold Start at hA
    rw [htn2] at hA
    cases hA
  | some tn =>
    rw [htn2] at htn
    have hstart := start_from_recording st1 A.ctx tn n2 sc htn hact ht hs
    refine ⟨_, _, ⟨sc.traceId, st1.nextId + 1⟩,
      { name := n2, tracerName := tn, traceId := sc.traceId
        spanId := st1.nextId + 1, parent := some sc.spanId, attrs := []
        events := [], status := .unset, ended := false },
      hstart, rfl, ?_, rfl, rfl, rfl⟩
    unfold findSpan
    rw [List.find?_cons_of_pos _ (by simp)]

/-- A context carrying a valid recording active span and the default
tracer name, as the middleware leaves it for the handler. -/
def c4Ctx : GoContext :=
  { activeSpan := some (.recording ⟨7, 3⟩), tracerName := some "vayu-http" }

/-- The state and wrapper produced by starting the parent span of the C4
witness. -/
def c4St1 : TraceState :=
  { nextId := 1
    spans := [{ name := "parent-span", tracerName := "vayu-http", traceId := 7
                spanId := 1, parent := some 3, attrs := [], events := []
                status := .unset, ended := false }]
    exported := [] }

/-- The wrapper `Start` returns for the C4 witness's parent span. -/
def c4A : SpanW :=
  { kind := .recording ⟨7, 1⟩
    ctx := { activeSpan := some (.recording ⟨7, 1⟩), tracerName := some "vayu-http" } }

/-- A found span carries the identifier it was looked up by. -/
theorem findSpan_spanId (st : TraceState) (sid : Nat) (d : SpanData)
    (h : findSpan st sid = some d) : d.spanId = sid := by
  unfold findSpan at h
  have h2 := List.find?_some h
  simpa using h2

/-- Case analysis of `NewProvider`: either every external construction
succeeds and the call returns a provider, no error, and the single exporter
selected by `UseStdout`; or some construction fails and the call returns no
provider, the wrapped construction error, and no constructed exporter. -/
theorem newProvider_shape (cfg : Config) (env : ExporterEnv) :
    ((NewProvider cfg env).1.1.isSome = true ∧
      (NewProvider cfg env).1.2 = none ∧
      (NewProvider cfg env).2 =
        [if cfg.UseStdout then Exporter.stdout true
         else Exporter.otlpGrpc cfg.OTLPEndpoint cfg.Insecure cfg.Headers] ∧
      (env.resourceErr = none ∧
       (if cfg.UseStdout then env.stdoutErr
        else env.otlpErr cfg.OTLPEndpoint cfg.Insecure cfg.Headers) = none)) ∨
    ((NewProvider cfg env).1.1 = none ∧
      (∃ m, (NewProvider cfg env).1.2 = some (GoError.other m)) ∧
      (NewProvider cfg env).2 = [] ∧
      ¬(env.resourceErr = none ∧
        (if cfg.UseStdout then env.stdoutErr
         else env.otlpErr cfg.OTLPEndpoint cfg.Insecure cfg.Headers) = none)) := by
  unfold NewProvider
  cases hres : env.resourceErr with
  | some e =>
    right
    simp [hres]
  | none =>
    cases hus : cfg.UseStdout with
    | true =>
      cases hso : env.stdoutErr with
      | some e =>
        right
        simp [hres, hus, hso]
      | none =>
        left
        simp [hres, hus, hso]
    | false =>
      cases hot : env.otlpErr cfg.OTLPEndpoint cfg.Insecure cfg.Headers with
      | some e =>
        right
        simp [hres, hus, hot]
      | none =>
        left
        simp [hres, hus, hot]

/-- Witness for C4 at a concrete parent span. -/
theorem c4_child_parent_linkage_witness :
    ∃ st2 B sc2 dB,
      Start c4St1 c4A.Context "child-span" = some (st2, B) ∧
      B.kind = CtxSpan.recording sc2 ∧
      findSpan st2 sc2.spanId = some dB ∧
      dB.parent = some (1 : Nat) ∧
      dB.traceId = 7 ∧
      sc2.traceId = 7 :=
  c4_child_parent_linkage initState c4Ctx "parent-span" "child-span"
    c4St1 c4A ⟨7, 1⟩ rfl rfl

/-- A configuration with an empty service name that selects the console
exporter. -/
def c3Cfg : Config :=
  { DefaultConfig with ServiceName := "", UseStdout := true }

/-- C3 counterexample: the claim says `NewProvider` fails with a
configuration error whenever the service name is empty. In the code no
configuration validation exists (`ErrInvalidConfig` is declared in
errors.go but never returned): with an empty service name and a
successfully constructed exporter, `NewProvider` returns a provider and no
error. -/
theorem c3_newProvider_accepts_empty_service_name :
    c3Cfg.ServiceName = "" ∧
    (NewProvider c3Cfg envOk).1.2 = none ∧
    (NewProvider c3Cfg envOk).1.1.isSome = true :=
  ⟨rfl, rfl, rfl⟩

/-- C3 amended: `NewProvider` performs no service-name validation. It
returns a provider if and only if it returns no error, which happens if
and only if the external resource construction and the construction of the
selected exporter succeed — independently of the service name; any error
it returns is a propagated construction error (never the repository's
`ErrInvalidConfig`). -/
theorem c3_newProvider_ok_iff_exporter_ok (cfg : Config) (env : ExporterEnv) :
    ((NewProvider cfg env).1.2 = none ↔
      env.resourceErr = none ∧
      (if cfg.UseStdout then env.stdoutErr
       else env.otlpErr cfg.OTLPEndpoint cfg.Insecure cfg.Headers) = none) ∧
    ((NewProvider cfg env).1.1.isSome ↔
      env.resourceErr = none ∧
      (if cfg.UseStdout then env.stdoutErr
       else env.otlpErr cfg.OTLPEndpoint cfg.Insecure cfg.Headers) = none) ∧
    ((NewProvider cfg env).1.2 = none ∨
      ∃ m, (NewProvider cfg env).1.2 = some (GoError.other m)) := by
  rcases newProvider_shape cfg env with ⟨h1, h2, h3, h4⟩ | ⟨h1, ⟨m, h2⟩, h3, h4⟩
  · exact ⟨by simp [h2, h4], by simp [h1, h4], Or.inl h2⟩
  · refine ⟨by simp [h2, h4], by simp [h1, h4], Or.inr ⟨m, h2⟩⟩

/-- C6: `NewProvider` constructs exactly one exporter: the console
exporter if and only if `UseStdout` is set, otherwise the OTLP gRPC
exporter with the configured endpoint, insecure flag and headers. -/
theorem c6_exactly_one_exporter (cfg : Config) (env : ExporterEnv)
    (hp : (NewProvider cfg env).1.1.isSome = true) :
    (NewProvider cfg env).2 =
      [if cfg.UseStdout then Exporter.stdout true
       else Exporter.otlpGrpc cfg.OTLPEndpoint cfg.Insecure cfg.Headers] := by
  rcases newProvider_shape cfg env with ⟨h1, h2, h3, h4⟩ | ⟨h1, h2, h3, h4⟩
  · exact h3
  · rw [h1] at hp
    cases hp

/-- Witness for C6 at the default configuration (network exporter) in a
fully successful environment. -/
theorem c6_exactly_one_exporter_witness :
    (NewProvider DefaultConfig envOk).2 =
      [Exporter.otlpGrpc "localhost:4317" true []] := by
  have h := c6_exactly_one_exporter DefaultConfig envOk rfl
  simpa using h

/-- C8: `Setup` returns `ErrNoApp` if and only if the application handle
is nil; with a nil handle no provider is constructed (in particular no
exporter), and with a handle present and a successful provider
construction a non-nil integration is returned. -/
theorem c8_setup_err_no_app (opts : SetupOptions) (env : ExporterEnv) :
    ((Setup opts env).1.2 = some GoError.errNoApp ↔ opts.App = none) ∧
    (opts.App = none →
      (Setup opts env).1.1 = none ∧ (Setup opts env).2 = []) ∧
    (∀ a, opts.App = some a → (NewProvider opts.Config env).1.2 = none →
      (Setup opts env).1.1.isSome = true) := by
  cases happ : opts.App with
  | none =>
    refine ⟨by simp [Setup, happ], fun _ => by simp [Setup, happ], by simp [happ]⟩
  | some app =>
    rcases newProvider_shape opts.Config env with ⟨h1, h2, h3, h4⟩ | ⟨h1, hm, h3, h4⟩
    · rcases hNP : NewProvider opts.Config env with ⟨⟨op, oe⟩, built⟩
      rw [hNP] at h1 h2
      have hop : ∃ p, op = some p := by
        cases op
        · cases h1
        · exact ⟨_, rfl⟩
      obtain ⟨p, hp⟩ := hop
      subst hp
      have hoe : oe = none := h2
      subst hoe
      refine ⟨by simp [Setup, happ, hNP], by simp [happ], ?_⟩
      intro a _ _
      simp [Setup, happ, hNP]
    · obtain ⟨m, hm2⟩ := hm
      rcases hNP : NewProvider opts.Config env with ⟨⟨op, oe⟩, built⟩
      rw [hNP] at h1 hm2
      have hop : op = none := h1
      subst hop
      have hoe : oe = some (GoError.other m) := hm2
      subst hoe
      refine ⟨by simp [Setup, happ, hNP], by simp [happ], ?_⟩
      intro a _ hok
      simp at hok

/-- Witness for C8 with a nil application handle: `Setup` returns no
integration and constructs nothing. -/
theorem c8_setup_err_no_app_witness :
    (Setup { App := none, Config := DefaultConfig } envOk).1.1 = none ∧
    (Setup { App := none, Config := DefaultConfig } envOk).2 = [] :=
  (c8_setup_err_no_app { App := none, Config := DefaultConfig } envOk).2.1 rfl

/-- C5: shutdown is idempotent. For every integration (hence every
provider) on which `Shutdown` completed without error, a second `Shutdown`
call — under any deadline — also returns no error and leaves the set of
spans flushed to the exporter unchanged (no duplicate export side
effects). -/
theorem c5_shutdown_idempotent (t1 t2 : Bool) (i : Integration)
    (h : (IntegrationShutdown t1 i).2 = none) :
    (IntegrationShutdown t2 (IntegrationShutdown t1 i).1).2 = none ∧
    exportedOf (IntegrationShutdown t2 (IntegrationShutdown t1 i).1).1 =
      exportedOf (IntegrationShutdown t1 i).1 := by
  rcases i with ⟨op, app⟩
  cases op with
  | none => exact ⟨rfl, rfl⟩
  | some p =>
    rcases p with ⟨otp, cfg⟩
    cases otp with
    | none => exact ⟨rfl, rfl⟩
    | some tp =>
      by_cases hsd : tp.isShutdown
      · simp [IntegrationShutdown, ProviderShutdown, sdkTracerProviderShutdown,
          hsd, exportedOf]
      · cases t1 with
        | true =>
          exfalso
          simp [IntegrationShutdown, ProviderShutdown, sdkTracerProviderShutdown,
            hsd] at h
        | false =>
          simp [IntegrationShutdown, ProviderShutdown, sdkTracerProviderShutdown,
            hsd, exportedOf]

/-- An integration with a live pipeline holding two buffered spans. -/
def c5Integ : Integration :=
  { provider := some
      { TracerProvider := some
          { res := [], exporter := .stdout true, batchTimeout := 0
            batchSize := 0, isShutdown := false, buffered := [1, 2]
            exported := [] }
        Config := DefaultConfig }
    app := ⟨1⟩ }

/-- Witness for C5: two successive shutdowns of a concrete integration. -/
theorem c5_shutdown_idempotent_witness :
    (IntegrationShutdown false (IntegrationShutdown false c5Integ).1).2 = none ∧
    exportedOf (IntegrationShutdown false (IntegrationShutdown false c5Integ).1).1 =
      exportedOf (IntegrationShutdown false c5Integ).1 :=
  c5_shutdown_idempotent false false c5Integ rfl

/-- C9: `GetTracer` never returns a nil tracer. When the integration's
provider is nil or its tracer provider pointer is nil it returns
`NewNoopTracer()` (the global provider's tracer named "noop" — the no-op
tracer when no SDK provider was installed globally); when the provider is
initialized it returns a tracer bound to the requested name. -/
theorem c9_getTracer_never_nil (i : Integration)
    (g : Option TracerProviderRec) (name : String) :
    (GetTracer i g name).isSome = true ∧
    ((i.provider = none ∨ ∃ p, i.provider = some p ∧ p.TracerProvider = none) →
      GetTracer i g name = some (NewNoopTracer g)) ∧
    (∀ p tp, i.provider = some p → p.TracerProvider = some tp →
      GetTracer i g name = some (Tracer.sdkTracer tp name)) := by
  rcases i with ⟨op, app⟩
  cases op with
  | none =>
    refine ⟨rfl, fun _ => rfl, ?_⟩
    intro p tp hp
    cases hp
  | some p =>
    rcases p with ⟨otp, cfg⟩
    cases otp with
    | none =>
      refine ⟨rfl, fun _ => rfl, ?_⟩
      intro p' tp hp' htp'
      injection hp' with hh
      rw [← hh] at htp'
      cases htp'
    | some tp =>
      refine ⟨rfl, ?_, ?_⟩
      · rintro (h | ⟨p', hp', htp'⟩)
        · cases h
        · injection hp' with hh
          rw [← hh] at htp'
          cases htp'
      · intro p' tp' hp' htp'
        injection hp' with hh
        rw [← hh] at htp'
        injection htp' with hh2
        rw [hh2]
        rfl

/-- Witness for C9 at an integration whose provider is nil and an empty
global provider: a non-nil no-op tracer is returned. -/
theorem c9_getTracer_never_nil_witness :
    GetTracer { provider := none, app := ⟨0⟩ } none "database" =
      some (NewNoopTracer none) :=
  (c9_getTracer_never_nil { provider := none, app := ⟨0⟩ } none "database").2.1
    (Or.inl rfl)

/-- C7: `AddAttributes` on a live recording span returns the wrapper
itself (chaining) and never fails: every entry of the heterogeneous map
whose value has a supported type is merged into the span's attribute set
(it becomes the stored value for its key), every entry with an unsupported
value type is silently dropped (the key's previous value, if any, is
untouched), and keys not mentioned in the map are unchanged. -/
theorem c7_addAttributes_merges (st : TraceState) (w : SpanW)
    (m : List (String × GoValue)) (sc : SpanCtx) (d : SpanData)
    (hk : w.kind = CtxSpan.recording sc)
    (hf : findSpan st sc.spanId = some d)
    (hend : d.ended = false) :
    (AddAttributes st w m).2 = w ∧
    ∃ d', findSpan (AddAttributes st w m).1 sc.spanId = some d' ∧
      (∀ k v, (k, v) ∈ m → keyCount m k = 1 →
        lookupAttr d'.attrs k = orO (convertVal v) (lookupAttr d.attrs k)) ∧
      (∀ k, keyCount m k = 0 →
        lookupAttr d'.attrs k = lookupAttr d.attrs k) := by
  refine ⟨rfl, ?_⟩
  have hsid := findSpan_spanId st sc.spanId d hf
  have h1 : (AddAttributes st w m).1 =
      setSpanAttributes st sc.spanId (convertToAttributes m) := by
    show applyOnRecording st w
      (fun st' sid => setSpanAttributes st' sid (convertToAttributes m)) =
      setSpanAttributes st sc.spanId (convertToAttributes m)
    unfold applyOnRecording
    rw [hk]
  have hupd : findSpan (AddAttributes st w m).1 sc.spanId =
      some { d with attrs := mergeAttrs d.attrs (convertToAttributes m) } := by
    rw [h1]
    unfold setSpanAttributes
    rw [findSpan_updateSpan]
    · rw [hf]
      simp [hsid, hend]
    · intro sp
      by_cases hsp : sp.ended <;> simp [hsp]
  refine ⟨_, hupd, ?_, ?_⟩
  · intro k v hmem hcnt
    show lookupAttr (mergeAttrs d.attrs (convertToAttributes m)) k = _
    rw [lookupAttr_mergeAttrs, lookupAttrLast_convert_unique m k v hmem hcnt]
  · intro k hcnt
    show lookupAttr (mergeAttrs d.attrs (convertToAttributes m)) k = _
    rw [lookupAttr_mergeAttrs, lookupAttrLast_convert_zero m k hcnt,
      orO_none_left]

/-- The stored span data of the C7 witness's live span. -/
def c7D : SpanData :=
  { name := "attributes-span", tracerName := "vayu-http", traceId := 1
    spanId := 2, parent := none, attrs := [], events := []
    status := .unset, ended := false }

/-- A state holding the C7 witness's live span. -/
def c7St : TraceState := { nextId := 2, spans := [c7D], exported := [] }

/-- The wrapper handle of the C7 witness's live span. -/
def c7W : SpanW :=
  { kind := .recording ⟨1, 2⟩
    ctx := { activeSpan := some (.recording ⟨1, 2⟩), tracerName := some "vayu-http" } }

/-- A heterogeneous attribute map mixing supported and unsupported value
types. -/
def c7M : List (String × GoValue) :=
  [("test.key", .vString "value"), ("test.count", .vInt 42),
   ("weird", .vOther "chan int")]

/-- Witness for C7 at a concrete live span and mixed attribute map. -/
theorem c7_addAttributes_merges_witness :
    (AddAttributes c7St c7W c7M).2 = c7W ∧
    ∃ d', findSpan (AddAttributes c7St c7W c7M).1 2 = some d' ∧
      (∀ k v, (k, v) ∈ c7M → keyCount c7M k = 1 →
        lookupAttr d'.attrs k = orO (convertVal v) (lookupAttr c7D.attrs k)) ∧
      (∀ k, keyCount c7M k = 0 →
        lookupAttr d'.attrs k = lookupAttr c7D.attrs k) :=
  c7_addAttributes_merges c7St c7W c7M ⟨1, 2⟩ c7D rfl rfl rfl

/-- C10: the set of value types `AddAttributes`'s conversion accepts is
exactly string, int, int64, float64, bool and `time.Time` (wider than the
spec's string/int/float/bool list), and a `time.Time` value is not dropped
but converted to an int64 attribute holding the time's Unix nanosecond
timestamp. -/
theorem c10_supported_value_types (k : String) (v : GoValue) :
    ((convertToAttributes [(k, v)]).length = 1 ↔
      (∃ s, v = GoValue.vString s) ∨ (∃ i, v = GoValue.vInt i) ∨
      (∃ i, v = GoValue.vInt64 i) ∨ (∃ f, v = GoValue.vFloat64 f) ∨
      (∃ b, v = GoValue.vBool b) ∨ (∃ t, v = GoValue.vTime t)) ∧
    (∀ t, convertToAttributes [(k, GoValue.vTime t)] =
      [⟨k, AttrValue.attrInt64 t.unixNano⟩]) := by
  constructor
  · cases v <;>
      simp [convertToAttributes, StringAttribute, IntAttribute, Int64Attribute,
        Float64Attribute, BoolAttribute, TimestampAttribute]
  · intro t
    rfl
